import Mathlib

/-!
Verification of the ventr-frontend route orchestration and routing service.

The definitions below are a shallow embedding of the TypeScript sources:

* the routing service (`routingService.ts`): request building, response
  validation, and the hardcoded-fallback behaviour of `calculateRoutes`;
* the map component (`MapboxMap.tsx`): the debounced route-calculation
  pipeline, the `latestCalculationId` staleness token, and the
  Toronto-bounds guard on location selection.

Asynchrony is modelled as a single-threaded event loop: a step function
over explicit events (point updates, debounce-timer firings, backend
resolutions), each carrying the `Date.now()` time at which the handler
runs.  A boolean trace-validity predicate captures the event loop's
timing discipline (monotone time, timers fire when scheduled).
-/

/-! ## Data model (routingService.ts interfaces) -/

/-- Interface `RouteStats` from routingService.ts. -/
structure RouteStats where
  total_distance_m : Rat
  total_time_s : Rat
  crime_incidents_nearby : Rat
  safety_score : Rat
  detour_factor : Rat
deriving DecidableEq, Repr

/-- The geometry of a `RouteFeature`: a LineString or a Point. -/
inductive RouteGeometry where
  | lineString (coordinates : List (Rat × Rat))
  | point (coordinates : Rat × Rat)
deriving DecidableEq, Repr

/-- The optional `properties` bag of a `RouteFeature`. -/
structure RouteFeatureProperties where
  algorithm : Option String := none
  total_distance_m : Option Rat := none
  node_count : Option Nat := none
  calculation_time_ms : Option Rat := none
  type : Option String := none
  name : Option String := none
deriving DecidableEq, Repr

/-- Interface `RouteFeature` from routingService.ts. -/
structure RouteFeature where
  geometry : RouteGeometry
  properties : RouteFeatureProperties
deriving DecidableEq, Repr

/-- A GeoJSON `FeatureCollection` of route features. -/
structure FeatureCollection where
  features : List RouteFeature
deriving DecidableEq, Repr

/-- Interface `RouteResponse` from routingService.ts. -/
structure RouteResponse where
  success : Bool
  message : String
  route_geojson : FeatureCollection
  route_stats : RouteStats
  shortest_path_stats : Option RouteStats
deriving DecidableEq, Repr

/-- Interface `RouteRequest` from routingService.ts. -/
structure RouteRequest where
  start_lng : Rat
  start_lat : Rat
  end_lng : Rat
  end_lat : Rat
deriving DecidableEq, Repr

/-- A latitude/longitude pair as sent to the backend. -/
structure LatLng where
  latitude : Rat
  longitude : Rat
deriving DecidableEq, Repr

/-- Interface `CalculateMultipleRequest` from routingService.ts: the JSON body of the
POST to the calculate-multiple endpoint. -/
structure CalculateMultipleRequest where
  start : LatLng
  destination : LatLng
  include_shortest : Bool
  include_safest : Bool
  crime_weight_safest : Rat
  max_detour_factor : Rat
deriving DecidableEq, Repr

/-- Interface `CalculateMultipleResponse` from routingService.ts.  Fields that the
code tests for truthiness (`!result.shortest_route` etc.) are modelled as
`Option`, `none` standing for an absent/null JSON field.  The opaque
`comparison_stats : any` payload is modelled as an optional string. -/
structure CalculateMultipleResponse where
  success : Bool
  message : String
  shortest_route : Option FeatureCollection
  shortest_stats : Option RouteStats
  safest_route : Option FeatureCollection
  safest_stats : Option RouteStats
  comparison_stats : Option String
deriving DecidableEq, Repr

/-- Interface `ProcessedRoutes` from routingService.ts. -/
structure ProcessedRoutes where
  shortest : RouteResponse
  safe : RouteResponse
  comparison : Option String := none
deriving DecidableEq, Repr

/-! ## RoutingService -/

/-- Method `RoutingService.validateApiResponse`: requires `success` to be truthy
and all four route/stats fields to be present. -/
def validateApiResponse (response : CalculateMultipleResponse) : Bool :=
  response.success &&
  response.shortest_route.isSome &&
  response.safest_route.isSome &&
  response.shortest_stats.isSome &&
  response.safest_stats.isSome

/-- The `apiRequest` object built inside `RoutingService.calculateRoutes`
and serialised as the POST body. -/
def buildApiRequest (request : RouteRequest) : CalculateMultipleRequest :=
  { start := { latitude := request.start_lat, longitude := request.start_lng }
    destination := { latitude := request.end_lat, longitude := request.end_lng }
    include_shortest := true
    include_safest := true
    crime_weight_safest := 0.1
    max_detour_factor := 2 }

/-- The URL that `RoutingService.calculateRoutes` fetches. -/
def calculateMultipleUrl (baseUrl : String) : String :=
  baseUrl ++ "/api/routing/calculate-multiple"

/-- The HTTP method used by `RoutingService.calculateRoutes`. -/
def calculateMultipleMethod : String := "POST"

/-- The outcome of the `fetch` call as seen by `calculateRoutes`:
the promise rejects (network error), resolves with a non-ok status,
or resolves with a parsed JSON body. -/
inductive FetchOutcome where
  | networkError (msg : String)
  | httpError (status : Nat) (body : String)
  | ok (result : CalculateMultipleResponse)
deriving DecidableEq, Repr

/-- The `try` block of `RoutingService.calculateRoutes`: every `throw`
becomes `Except.error`, the final `return processedRoutes` becomes
`Except.ok`. -/
def tryCalculateRoutes (outcome : FetchOutcome) : Except String ProcessedRoutes :=
  match outcome with
  | .networkError msg => .error msg
  | .httpError status body =>
      .error s!"Calculate-multiple API failed: {status} - {body}"
  | .ok result =>
      if validateApiResponse result = false then
        .error "Invalid API response structure"
      else if result.success = false then
        let msg := result.message
        .error s!"API returned success: false - {msg}"
      else
        match result.shortest_route, result.safest_route with
        | some shortestRoute, some safestRoute =>
            match result.shortest_stats, result.safest_stats with
            | some shortestStats, some safestStats =>
                .ok
                  { shortest :=
                      { success := result.success
                        message := result.message
                        route_geojson := shortestRoute
                        route_stats := shortestStats
                        shortest_path_stats := none }
                    safe :=
                      { success := result.success
                        message := result.message
                        route_geojson := safestRoute
                        route_stats := safestStats
                        shortest_path_stats := none }
                    comparison := result.comparison_stats }
            | _, _ => .error "API response missing stats data"
        | _, _ => .error "API response missing route data"

/-! ## Hardcoded development fallback (`RoutingService.getHardcodedRoutes`) -/

/-- The hardcoded shortest route (blue) from `getHardcodedRoutes`. -/
def hardcodedShortestRoute : RouteResponse :=
  { success := true
    message := "Route calculated successfully"
    route_geojson :=
      { features :=
          [ { geometry := .lineString
                [ (-79.398508, 43.653891), (-79.39862, 43.653869),
                  (-79.398793, 43.654295), (-79.398844, 43.654422),
                  (-79.399104, 43.655062), (-79.399135, 43.655139),
                  (-79.399363, 43.655721), (-79.399397, 43.655783),
                  (-79.39943, 43.655862), (-79.399445, 43.65593),
                  (-79.399742, 43.656645), (-79.399791, 43.656755),
                  (-79.400211, 43.657829), (-79.400246, 43.657905),
                  (-79.400315, 43.658056), (-79.400298, 43.658075),
                  (-79.401639, 43.659427), (-79.401678, 43.65953),
                  (-79.401669, 43.659552), (-79.401539, 43.661169),
                  (-79.401543, 43.661185), (-79.401603, 43.661333),
                  (-79.401454, 43.661362), (-79.401465, 43.661393) ]
              properties :=
                { algorithm := some "shortest_path"
                  total_distance_m := some 946.0431277511706
                  node_count := some 24
                  calculation_time_ms := some 3.2889842987060547 } }
          , { geometry := .point (-79.398508, 43.653891)
              properties := { type := some "start", name := some "Start Point" } }
          , { geometry := .point (-79.401465, 43.661393)
              properties := { type := some "end", name := some "End Point" } } ] }
    route_stats :=
      { total_distance_m := 946
        total_time_s := 681
        crime_incidents_nearby := 23
        safety_score := 0.26
        detour_factor := 1 }
    shortest_path_stats := none }

/-- The hardcoded safe route (green) from `getHardcodedRoutes`. -/
def hardcodedSafeRoute : RouteResponse :=
  { success := true
    message := "Route calculated successfully"
    route_geojson :=
      { features :=
          [ { geometry := .lineString
                [ (-79.398508, 43.653891), (-79.39862, 43.653869),
                  (-79.398793, 43.654295), (-79.398393, 43.654379),
                  (-79.398443, 43.654508), (-79.398604, 43.654918),
                  (-79.398634, 43.654996), (-79.397042, 43.655334),
                  (-79.396922, 43.655358), (-79.397069, 43.655732),
                  (-79.397215, 43.656079), (-79.397368, 43.656456),
                  (-79.397399, 43.656541), (-79.397561, 43.656937),
                  (-79.39806, 43.658183), (-79.398143, 43.65837),
                  (-79.398773, 43.659993), (-79.398947, 43.659964),
                  (-79.398984, 43.660067), (-79.399004, 43.660063),
                  (-79.399303, 43.660804), (-79.399468, 43.661525),
                  (-79.399598, 43.66158), (-79.400791, 43.661332),
                  (-79.401184, 43.661251), (-79.401245, 43.661411),
                  (-79.401454, 43.661362), (-79.401465, 43.661393) ]
              properties :=
                { algorithm := some "weighted_astar"
                  total_distance_m := some 1230.8694700515448
                  node_count := some 28
                  calculation_time_ms := some 3.7293434143066406 } }
          , { geometry := .point (-79.398508, 43.653891)
              properties := { type := some "start", name := some "Start Point" } }
          , { geometry := .point (-79.401465, 43.661393)
              properties := { type := some "end", name := some "End Point" } } ] }
    route_stats :=
      { total_distance_m := 1230.9
        total_time_s := 886
        crime_incidents_nearby := 27
        safety_score := 0.473
        detour_factor := 1 }
    shortest_path_stats := none }

/-- Method `RoutingService.getHardcodedRoutes`: ignores the request and returns
the fixed Toronto development data. -/
def getHardcodedRoutes (_request : RouteRequest) : ProcessedRoutes :=
  { shortest := hardcodedShortestRoute
    safe := hardcodedSafeRoute }

/-- Method `RoutingService.calculateRoutes`: the `catch` clause swallows every
error from the `try` block and falls back to the hardcoded data, so the
returned promise always resolves with a `ProcessedRoutes`. -/
def serviceCalculateRoutes (request : RouteRequest) (outcome : FetchOutcome) :
    ProcessedRoutes :=
  match tryCalculateRoutes outcome with
  | .ok processedRoutes => processedRoutes
  | .error _ => getHardcodedRoutes request

/-! ## MapboxMap component state and events -/

/-- Interface `LocationPoint` from MapboxMap.tsx. -/
structure LocationPoint where
  lng : Rat
  lat : Rat
  address : Option String := none
deriving DecidableEq, Repr

/-- The `routeRequest` object built in the component's `calculateRoutes`
from the current start/destination snapshot. -/
def mkRouteRequest (startPoint destinationPoint : LocationPoint) : RouteRequest :=
  { start_lng := startPoint.lng
    start_lat := startPoint.lat
    end_lng := destinationPoint.lng
    end_lat := destinationPoint.lat }

/-- The outcome of `routingService.calculateRoutes(...)` as awaited by the
component: the promise fulfils with routes or rejects with an error
message. -/
inductive CalcOutcome where
  | success (routes : ProcessedRoutes)
  | failure (msg : String)
deriving DecidableEq, Repr

/-- The component state relevant to route orchestration: the two points,
the route/loading/error state, the `latestCalculationId` ref and the
pending debounce timer (its scheduled firing time, if armed). -/
structure OrchState where
  startPoint : Option LocationPoint
  destinationPoint : Option LocationPoint
  routes : Option ProcessedRoutes
  isLoadingRoutes : Bool
  routeError : Option String
  latestCalculationId : Nat
  pendingTimer : Option Nat
deriving DecidableEq, Repr

/-- The initial component state. -/
def initOrchState : OrchState :=
  { startPoint := none
    destinationPoint := none
    routes := none
    isLoadingRoutes := false
    routeError := none
    latestCalculationId := 0
    pendingTimer := none }

/-- Events processed by the single-threaded event loop, each carrying the
`Date.now()` time at which its handler runs. -/
inductive OrchEvent where
  | setStart (p : Option LocationPoint) (t : Nat)
  | setDestination (p : Option LocationPoint) (t : Nat)
  | timerFire (t : Nat)
  | resolve (token : Nat) (outcome : CalcOutcome) (t : Nat)
deriving DecidableEq, Repr

/-- The time at which an event's handler runs. -/
def eventTime : OrchEvent → Nat
  | .setStart _ t => t
  | .setDestination _ t => t
  | .timerFire t => t
  | .resolve _ _ t => t

/-- Externally observable actions emitted by a step: dispatching the
backend call, drawing routes (`addRoutesToMap`), or removing them
(`removeRoutesFromMap`). -/
inductive OrchAction where
  | backendCall (token : Nat) (request : RouteRequest)
  | renderRoutes (routes : ProcessedRoutes)
  | clearMapRoutes
deriving DecidableEq, Repr

/-- The route-calculation `useEffect` body, run after either point changes
at time `t`.  Its cleanup has already cancelled any previously pending
debounce timer; if both points are set a new 300ms timer is armed,
otherwise the route state is cleared immediately. -/
def routeEffect (s : OrchState) (t : Nat) : OrchState × List OrchAction :=
  match s.startPoint, s.destinationPoint with
  | some _, some _ => ({ s with pendingTimer := some (t + 300) }, [])
  | _, _ => ({ s with pendingTimer := none, routes := none }, [.clearMapRoutes])

/-- The component's `calculateRoutes` callback running at time `t`:
if either point is missing it returns immediately; otherwise it mints the
token `Date.now()`, stores it in `latestCalculationId`, sets the loading
flag, clears the error and dispatches the backend call with the current
point snapshot. -/
def runCalculateRoutes (s : OrchState) (t : Nat) : OrchState × List OrchAction :=
  match s.startPoint, s.destinationPoint with
  | some startPoint, some destinationPoint =>
      ({ s with latestCalculationId := t
                isLoadingRoutes := true
                routeError := none },
       [.backendCall t (mkRouteRequest startPoint destinationPoint)])
  | _, _ => (s, [])

/-- Resumption of `calculateRoutes` when the awaited backend promise
settles: the `then`/`catch`/`finally` bodies each re-check the token
against `latestCalculationId` and do nothing when it is stale. -/
def resolveStep (s : OrchState) (token : Nat) (outcome : CalcOutcome) :
    OrchState × List OrchAction :=
  if token = s.latestCalculationId then
    match outcome with
    | .success calculatedRoutes =>
        ({ s with routes := some calculatedRoutes, isLoadingRoutes := false },
         [.renderRoutes calculatedRoutes])
    | .failure msg =>
        ({ s with routeError := some msg, isLoadingRoutes := false }, [])
  else (s, [])

/-- One event-loop step. -/
def orchStep (s : OrchState) (e : OrchEvent) : OrchState × List OrchAction :=
  match e with
  | .setStart p t => routeEffect { s with startPoint := p } t
  | .setDestination p t => routeEffect { s with destinationPoint := p } t
  | .timerFire t => runCalculateRoutes { s with pendingTimer := none } t
  | .resolve token outcome _ => resolveStep s token outcome

/-- Run a list of events, collecting all emitted actions. -/
def orchRun (s : OrchState) : List OrchEvent → OrchState × List OrchAction
  | [] => (s, [])
  | e :: rest =>
      let step := orchStep s e
      let remaining := orchRun step.1 rest
      (remaining.1, step.2 ++ remaining.2)

/-- Trace validity for the event loop: event times are monotone, no event
runs after a still-armed timer's scheduled firing time (the timer would
have fired first), and a `timerFire t` event fires exactly the armed
timer. -/
def validTrace : Nat → OrchState → List OrchEvent → Bool
  | _, _, [] => true
  | now, s, e :: rest =>
      decide (now ≤ eventTime e) &&
      (match s.pendingTimer with
       | some f => decide (eventTime e ≤ f)
       | none => true) &&
      (match e with
       | .timerFire t => decide (s.pendingTimer = some t)
       | _ => true) &&
      validTrace (eventTime e) (orchStep s e).1 rest

/-- The tokens of the backend calls dispatched in an action list, in
dispatch order. -/
def callTokens (actions : List OrchAction) : List Nat :=
  actions.filterMap fun a =>
    match a with
    | .backendCall token _ => some token
    | _ => none

/-- Returns `true` for backend-resolution events. -/
def isResolve : OrchEvent → Bool
  | .resolve _ _ _ => true
  | _ => false

/-- Accumulates the payload of the most recent successful resolution
carrying token `tn`. -/
def applySuccess (tn : Nat) (acc : Option ProcessedRoutes) : OrchEvent → Option ProcessedRoutes
  | .resolve token (.success r) _ => if token = tn then some r else acc
  | _ => acc

/-- The payload of the last successful resolution carrying token `tn`
in a list of events, if any. -/
def lastSuccessFor (tn : Nat) (evs : List OrchEvent) : Option ProcessedRoutes :=
  evs.foldl (applySuccess tn) none

/-! ## Toronto-bounds guard on location selection -/

/-- Constant `TORONTO_CENTER` from MapboxMap.tsx. -/
def TORONTO_CENTER : LatLng := { latitude := 43.6532, longitude := -79.3832 }

/-- Constant `MAX_DISTANCE_KM` from MapboxMap.tsx. -/
def MAX_DISTANCE_KM : Rat := 30

/-- Which point a selection targets (`'start' | 'destination'`). -/
inductive PointType where
  | start
  | destination
deriving DecidableEq, Repr

/-- Component state touched by the selection handlers. -/
structure SelectionState where
  startPoint : Option LocationPoint
  destinationPoint : Option LocationPoint
  startInputValue : String
  destinationInputValue : String
  popupMessage : Option String
  startMarker : Option (Rat × Rat)
  destinationMarker : Option (Rat × Rat)
deriving DecidableEq, Repr

/-- Handler `handleSetLocation` from MapboxMap.tsx (map-click selection).
The distance `dist` stands for the value `getDistanceKm(lat, lng,
TORONTO_CENTER.lat, TORONTO_CENTER.lng)` computed by the handler with
floating-point trigonometry, and `address` for the result of the awaited
`reverseGeocode(lng, lat)`.  If `dist` exceeds `MAX_DISTANCE_KM` the
selection is rejected: the transient popup message is shown, the
corresponding input field is cleared and the handler returns before
touching any point or marker. -/
def handleSetLocation (dist : Rat) (address : String) (lng lat : Rat)
    (type : PointType) (s : SelectionState) : SelectionState :=
  if dist > MAX_DISTANCE_KM then
    match type with
    | .start =>
        { s with popupMessage := some "Select locations within Toronto"
                 startInputValue := "" }
    | .destination =>
        { s with popupMessage := some "Select locations within Toronto"
                 destinationInputValue := "" }
  else
    match type with
    | .start =>
        { s with startPoint := some { lng := lng, lat := lat, address := some address }
                 startInputValue := address
                 startMarker := some (lng, lat) }
    | .destination =>
        { s with destinationPoint := some { lng := lng, lat := lat, address := some address }
                 destinationInputValue := address
                 destinationMarker := some (lng, lat) }

/-- Handler `handleLocationSelect` from MapboxMap.tsx (search selection).  Same
Toronto-bounds guard as `handleSetLocation`; on acceptance the selected
location (which carries its address) is stored and its marker placed. -/
def handleLocationSelect (dist : Rat) (lng lat : Rat) (address : String)
    (type : PointType) (s : SelectionState) : SelectionState :=
  if dist > MAX_DISTANCE_KM then
    match type with
    | .start =>
        { s with popupMessage := some "Select locations within Toronto"
                 startInputValue := "" }
    | .destination =>
        { s with popupMessage := some "Select locations within Toronto"
                 destinationInputValue := "" }
  else
    match type with
    | .start =>
        { s with startPoint := some { lng := lng, lat := lat, address := some address }
                 startInputValue := address
                 startMarker := some (lng, lat) }
    | .destination =>
        { s with destinationPoint := some { lng := lng, lat := lat, address := some address }
                 destinationInputValue := address
                 destinationMarker := some (lng, lat) }

/-! ## Run and validity decomposition lemmas -/

theorem orchRun_append (s : OrchState) (l1 l2 : List OrchEvent) :
    orchRun s (l1 ++ l2) =
      ((orchRun (orchRun s l1).1 l2).1,
       (orchRun s l1).2 ++ (orchRun (orchRun s l1).1 l2).2) := by
  induction l1 generalizing s with
  | nil => simp [orchRun]
  | cons e rest ih =>
      have h2 : rest.append l2 = rest ++ l2 := rfl
      simp only [List.cons_append, orchRun, h2, ih, List.append_assoc]

theorem validTrace_append_left (now : Nat) (s : OrchState) (l1 l2 : List OrchEvent)
    (h : validTrace now s (l1 ++ l2) = true) : validTrace now s l1 = true := by
  induction l1 generalizing now s with
  | nil => simp [validTrace]
  | cons e rest ih =>
      simp only [List.cons_append, validTrace, Bool.and_eq_true] at h ⊢
      exact ⟨⟨⟨h.1.1.1, h.1.1.2⟩, h.1.2⟩, ih _ _ h.2⟩

theorem validTrace_append_right (now : Nat) (s : OrchState) (l1 l2 : List OrchEvent)
    (h : validTrace now s (l1 ++ l2) = true) :
    ∃ now2, now ≤ now2 ∧ validTrace now2 (orchRun s l1).1 l2 = true := by
  induction l1 generalizing now s with
  | nil =>
      exact ⟨now, le_refl now, by simpa [orchRun] using h⟩
  | cons e rest ih =>
      simp only [List.cons_append, validTrace, Bool.and_eq_true] at h
      obtain ⟨now2, hle, hv⟩ := ih (eventTime e) (orchStep s e).1 h.2
      refine ⟨now2, ?_, ?_⟩
      · exact le_trans (by exact_mod_cast of_decide_eq_true h.1.1.1) hle
      · simpa [orchRun] using hv


/-! ## Token invariant -/

@[simp]
theorem callTokens_nil : callTokens [] = [] := rfl

@[simp]
theorem callTokens_backendCall (tok : Nat) (r : RouteRequest) (rest : List OrchAction) :
    callTokens (.backendCall tok r :: rest) = tok :: callTokens rest := rfl

@[simp]
theorem callTokens_renderRoutes (r : ProcessedRoutes) (rest : List OrchAction) :
    callTokens (.renderRoutes r :: rest) = callTokens rest := rfl

@[simp]
theorem callTokens_clearMapRoutes (rest : List OrchAction) :
    callTokens (.clearMapRoutes :: rest) = callTokens rest := rfl

theorem callTokens_append (l1 l2 : List OrchAction) :
    callTokens (l1 ++ l2) = callTokens l1 ++ callTokens l2 :=
  List.filterMap_append l1 l2 _

/-- Invariant tying the running state to the tokens dispatched so far:
all dispatched tokens lie in the past, an armed timer fires strictly
after every dispatched token, tokens are strictly increasing in dispatch
order, and `latestCalculationId` is the most recently dispatched token
(`0`, its initial value, if none). -/
def TokInv (now : Nat) (s : OrchState) (toks : List Nat) : Prop :=
  (∀ tok ∈ toks, tok ≤ now) ∧
  (∀ f, s.pendingTimer = some f → ∀ tok ∈ toks, tok < f) ∧
  List.Pairwise (· < ·) toks ∧
  s.latestCalculationId = toks.getLast?.getD 0

/-! Step-equation lemmas. -/

theorem routeEffect_both (s : OrchState) (a b : LocationPoint) (t : Nat)
    (h1 : s.startPoint = some a) (h2 : s.destinationPoint = some b) :
    routeEffect s t = ({ s with pendingTimer := some (t + 300) }, []) := by
  unfold routeEffect
  rw [h1, h2]

theorem routeEffect_noStart (s : OrchState) (t : Nat)
    (h1 : s.startPoint = none) :
    routeEffect s t =
      ({ s with pendingTimer := none, routes := none }, [.clearMapRoutes]) := by
  unfold routeEffect
  rw [h1]

theorem routeEffect_noDest (s : OrchState) (t : Nat)
    (h2 : s.destinationPoint = none) :
    routeEffect s t =
      ({ s with pendingTimer := none, routes := none }, [.clearMapRoutes]) := by
  unfold routeEffect
  rw [h2]
  rcases hsp : s.startPoint with _ | a <;> rfl

theorem runCalculateRoutes_both (s : OrchState) (a b : LocationPoint) (t : Nat)
    (h1 : s.startPoint = some a) (h2 : s.destinationPoint = some b) :
    runCalculateRoutes s t =
      ({ s with latestCalculationId := t
                isLoadingRoutes := true
                routeError := none },
       [.backendCall t (mkRouteRequest a b)]) := by
  unfold runCalculateRoutes
  rw [h1, h2]

theorem runCalculateRoutes_noStart (s : OrchState) (t : Nat)
    (h1 : s.startPoint = none) : runCalculateRoutes s t = (s, []) := by
  unfold runCalculateRoutes
  rw [h1]

theorem runCalculateRoutes_noDest (s : OrchState) (t : Nat)
    (h2 : s.destinationPoint = none) : runCalculateRoutes s t = (s, []) := by
  unfold runCalculateRoutes
  rw [h2]
  rcases hsp : s.startPoint with _ | a <;> rfl

theorem resolveStep_stale (s : OrchState) (token : Nat) (outcome : CalcOutcome)
    (h : token ≠ s.latestCalculationId) : resolveStep s token outcome = (s, []) := by
  unfold resolveStep
  rw [if_neg h]

theorem resolveStep_current_success (s : OrchState) (token : Nat)
    (calculatedRoutes : ProcessedRoutes) (h : token = s.latestCalculationId) :
    resolveStep s token (.success calculatedRoutes) =
      ({ s with routes := some calculatedRoutes, isLoadingRoutes := false },
       [.renderRoutes calculatedRoutes]) := by
  unfold resolveStep
  rw [if_pos h]

theorem resolveStep_current_failure (s : OrchState) (token : Nat) (msg : String)
    (h : token = s.latestCalculationId) :
    resolveStep s token (.failure msg) =
      ({ s with routeError := some msg, isLoadingRoutes := false }, []) := by
  unfold resolveStep
  rw [if_pos h]

theorem tokInv_step (now : Nat) (s : OrchState) (toks : List Nat) (e : OrchEvent)
    (hinv : TokInv now s toks)
    (hnow : now ≤ eventTime e)
    (hguard : ∀ f, s.pendingTimer = some f → eventTime e ≤ f)
    (hfire : ∀ t, e = .timerFire t → s.pendingTimer = some t) :
    TokInv (eventTime e) (orchStep s e).1 (toks ++ callTokens (orchStep s e).2) := by
  obtain ⟨hpast, htimer, hsorted, hlast⟩ := hinv
  have hpast' : ∀ tok ∈ toks, tok ≤ eventTime e :=
    fun tok htok => le_trans (hpast tok htok) hnow
  cases e with
  | setStart p t =>
      show TokInv t _ _
      simp only [orchStep]
      rcases hp : p with _ | q
      · rw [routeEffect_noStart _ t (by simp [hp])]
        exact ⟨by simpa using hpast', by simp, by simpa using hsorted,
          by simpa using hlast⟩
      · rcases hd : s.destinationPoint with _ | r
        · rw [routeEffect_noDest _ t (by simp [hd])]
          exact ⟨by simpa using hpast', by simp, by simpa using hsorted,
            by simpa using hlast⟩
        · rw [routeEffect_both _ q r t (by simp) (by simp [hd])]
          refine ⟨by simpa using hpast', ?_, by simpa using hsorted,
            by simpa using hlast⟩
          intro f hf tok htok
          simp only [Option.some.injEq] at hf
          have := hpast' tok (by simpa using htok)
          simp only [eventTime] at this
          omega
  | setDestination p t =>
      show TokInv t _ _
      simp only [orchStep]
      rcases hp : p with _ | q
      · rw [routeEffect_noDest _ t (by simp [hp])]
        exact ⟨by simpa using hpast', by simp, by simpa using hsorted,
          by simpa using hlast⟩
      · rcases hd : s.startPoint with _ | r
        · rw [routeEffect_noStart _ t (by simp [hd])]
          exact ⟨by simpa using hpast', by simp, by simpa using hsorted,
            by simpa using hlast⟩
        · rw [routeEffect_both _ r q t (by simp [hd]) (by simp)]
          refine ⟨by simpa using hpast', ?_, by simpa using hsorted,
            by simpa using hlast⟩
          intro f hf tok htok
          simp only [Option.some.injEq] at hf
          have := hpast' tok (by simpa using htok)
          simp only [eventTime] at this
          omega
  | timerFire t =>
      show TokInv t _ _
      have hpend : s.pendingTimer = some t := hfire t rfl
      have htlt : ∀ tok ∈ toks, tok < t := htimer t hpend
      simp only [orchStep]
      rcases hsp : s.startPoint with _ | a
      · rw [runCalculateRoutes_noStart _ t (by simp [hsp])]
        exact ⟨by simpa using hpast', by simp [hsp], by simpa using hsorted,
          by simpa using hlast⟩
      · rcases hsd : s.destinationPoint with _ | b
        · rw [runCalculateRoutes_noDest _ t (by simp [hsd])]
          exact ⟨by simpa using hpast', by simp [hsd], by simpa using hsorted,
            by simpa using hlast⟩
        · rw [runCalculateRoutes_both _ a b t (by simp [hsp]) (by simp [hsd])]
          refine ⟨?_, by simp, ?_, by simp⟩
          · intro tok htok
            simp only [callTokens_backendCall, callTokens_nil, List.mem_append,
              List.mem_singleton] at htok
            rcases htok with h | h
            · exact hpast' tok h
            · omega
          · simp only [callTokens_backendCall, callTokens_nil]
            rw [List.pairwise_append]
            refine ⟨hsorted, List.pairwise_singleton _ _, ?_⟩
            intro x hx y hy
            simp only [List.mem_singleton] at hy
            subst hy
            exact htlt x hx
  | resolve token outcome t =>
      show TokInv t _ _
      simp only [orchStep]
      by_cases hc : token = s.latestCalculationId
      · cases outcome with
        | success r =>
            rw [resolveStep_current_success _ _ _ hc]
            refine ⟨by simpa using hpast', ?_, by simpa using hsorted,
              by simpa using hlast⟩
            intro f hf tok htok
            exact htimer f hf tok (by simpa using htok)
        | failure msg =>
            rw [resolveStep_current_failure _ _ _ hc]
            refine ⟨by simpa using hpast', ?_, by simpa using hsorted,
              by simpa using hlast⟩
            intro f hf tok htok
            exact htimer f hf tok (by simpa using htok)
      · rw [resolveStep_stale _ _ _ hc]
        refine ⟨by simpa using hpast', ?_, by simpa using hsorted,
          by simpa using hlast⟩
        intro f hf tok htok
        exact htimer f hf tok (by simpa using htok)

/-! ## Trace-level lemmas -/

theorem validTrace_cons (now : Nat) (s : OrchState) (e : OrchEvent)
    (rest : List OrchEvent) :
    validTrace now s (e :: rest) = true ↔
      now ≤ eventTime e ∧
      (∀ f, s.pendingTimer = some f → eventTime e ≤ f) ∧
      (∀ t, e = .timerFire t → s.pendingTimer = some t) ∧
      validTrace (eventTime e) (orchStep s e).1 rest = true := by
  simp only [validTrace, Bool.and_eq_true, decide_eq_true_eq]
  constructor
  · rintro ⟨⟨⟨h1, h2⟩, h3⟩, h4⟩
    refine ⟨h1, ?_, ?_, h4⟩
    · intro f hf
      rw [hf] at h2
      simpa using h2
    · intro t he
      subst he
      simpa using h3
  · rintro ⟨h1, h2, h3, h4⟩
    refine ⟨⟨⟨h1, ?_⟩, ?_⟩, h4⟩
    · cases hp : s.pendingTimer with
      | none => simp
      | some f => simpa using h2 f hp
    · cases e with
      | timerFire t => simpa using h3 t rfl
      | setStart p t => simp
      | setDestination p t => simp
      | resolve token outcome t => simp

theorem tokInv_run (evs : List OrchEvent) :
    ∀ (now : Nat) (s : OrchState) (toks : List Nat),
      TokInv now s toks → validTrace now s evs = true →
      ∃ now2, TokInv now2 (orchRun s evs).1 (toks ++ callTokens (orchRun s evs).2) := by
  induction evs with
  | nil =>
      intro now s toks hinv _
      exact ⟨now, by simpa [orchRun] using hinv⟩
  | cons e rest ih =>
      intro now s toks hinv hval
      rw [validTrace_cons] at hval
      obtain ⟨h1, h2, h3, h4⟩ := hval
      have hstep := tokInv_step now s toks e hinv h1 h2 h3
      obtain ⟨now2, hinv2⟩ :=
        ih (eventTime e) (orchStep s e).1 (toks ++ callTokens (orchStep s e).2) hstep h4
      refine ⟨now2, ?_⟩
      simpa [orchRun, callTokens_append, List.append_assoc] using hinv2

theorem tokInv_run_init (evs : List OrchEvent)
    (h : validTrace 0 initOrchState evs = true) :
    ∃ now2, TokInv now2 (orchRun initOrchState evs).1
      (callTokens (orchRun initOrchState evs).2) := by
  have hinit : TokInv 0 initOrchState [] := by
    refine ⟨by simp, ?_, List.Pairwise.nil, by simp [initOrchState]⟩
    intro f hf
    simp [initOrchState] at hf
  obtain ⟨now2, h2⟩ := tokInv_run evs 0 initOrchState [] hinit h
  exact ⟨now2, by simpa using h2⟩

theorem orchStep_routes_none (s : OrchState) (e : OrchEvent)
    (hres : isResolve e = false) (h : s.routes = none) :
    (orchStep s e).1.routes = none := by
  cases e with
  | setStart p t =>
      simp only [orchStep]
      rcases hp : p with _ | q
      · rw [routeEffect_noStart _ t (by simp [hp])]
      · rcases hd : s.destinationPoint with _ | r
        · rw [routeEffect_noDest _ t (by simp [hd])]
        · rw [routeEffect_both _ q r t (by simp) (by simp [hd])]
          simpa using h
  | setDestination p t =>
      simp only [orchStep]
      rcases hp : p with _ | q
      · rw [routeEffect_noDest _ t (by simp [hp])]
      · rcases hd : s.startPoint with _ | r
        · rw [routeEffect_noStart _ t (by simp [hd])]
        · rw [routeEffect_both _ r q t (by simp [hd]) (by simp)]
          simpa using h
  | timerFire t =>
      simp only [orchStep]
      rcases hsp : s.startPoint with _ | a
      · rw [runCalculateRoutes_noStart _ t (by simp [hsp])]
        simpa using h
      · rcases hsd : s.destinationPoint with _ | b
        · rw [runCalculateRoutes_noDest _ t (by simp [hsd])]
          simpa using h
        · rw [runCalculateRoutes_both _ a b t (by simp [hsp]) (by simp [hsd])]
          simpa using h
  | resolve token outcome t => simp [isResolve] at hres

theorem orchRun_routes_none (evs : List OrchEvent) :
    ∀ s : OrchState, (∀ e ∈ evs, isResolve e = false) → s.routes = none →
      (orchRun s evs).1.routes = none := by
  induction evs with
  | nil =>
      intro s _ h
      simpa [orchRun] using h
  | cons e rest ih =>
      intro s hall h
      have hstep := orchStep_routes_none s e (hall e (List.mem_cons_self e rest)) h
      have := ih (orchStep s e).1 (fun x hx => hall x (List.mem_cons_of_mem e hx)) hstep
      simpa [orchRun] using this

@[simp]
theorem applySuccess_success (tn token : Nat) (acc : Option ProcessedRoutes)
    (r : ProcessedRoutes) (t : Nat) :
    applySuccess tn acc (.resolve token (.success r) t) =
      if token = tn then some r else acc := rfl

@[simp]
theorem applySuccess_failure (tn token : Nat) (acc : Option ProcessedRoutes)
    (msg : String) (t : Nat) :
    applySuccess tn acc (.resolve token (.failure msg) t) = acc := rfl

/-- During a resolution-only suffix of a trace, `latestCalculationId`
never changes and the route state evolves exactly as the fold of
`applySuccess` over the resolutions: only successful resolutions carrying
the current token are ever applied. -/
theorem resolve_phase (evs : List OrchEvent) :
    ∀ (s : OrchState) (tn : Nat), (∀ e ∈ evs, isResolve e = true) →
      s.latestCalculationId = tn →
      (orchRun s evs).1.routes = evs.foldl (applySuccess tn) s.routes ∧
      (orchRun s evs).1.latestCalculationId = tn := by
  induction evs with
  | nil =>
      intro s tn _ hlatest
      exact ⟨rfl, hlatest⟩
  | cons e rest ih =>
      intro s tn hall hlatest
      cases e with
      | setStart p t => simpa [isResolve] using hall _ (List.mem_cons_self _ _)
      | setDestination p t => simpa [isResolve] using hall _ (List.mem_cons_self _ _)
      | timerFire t => simpa [isResolve] using hall _ (List.mem_cons_self _ _)
      | resolve token outcome t =>
          have hrest : ∀ x ∈ rest, isResolve x = true :=
            fun x hx => hall x (List.mem_cons_of_mem _ hx)
          by_cases hc : token = tn
          · cases outcome with
            | success r =>
                have hstep := resolveStep_current_success s token r (hc.trans hlatest.symm)
                have h1 : (orchStep s (.resolve token (.success r) t)).1 =
                    { s with routes := some r, isLoadingRoutes := false } := by
                  simp [orchStep, hstep]
                have := ih { s with routes := some r, isLoadingRoutes := false } tn hrest
                  (by simpa using hlatest)
                simp only [orchRun, h1, List.foldl_cons, applySuccess_success, if_pos hc]
                exact this
            | failure msg =>
                have hstep := resolveStep_current_failure s token msg (hc.trans hlatest.symm)
                have h1 : (orchStep s (.resolve token (.failure msg) t)).1 =
                    { s with routeError := some msg, isLoadingRoutes := false } := by
                  simp [orchStep, hstep]
                have := ih { s with routeError := some msg, isLoadingRoutes := false } tn hrest
                  (by simpa using hlatest)
                simp only [orchRun, h1, List.foldl_cons, applySuccess_failure]
                exact this
          · have hne : token ≠ s.latestCalculationId := by
              rw [hlatest]
              exact hc
            have hstep := resolveStep_stale s token outcome hne
            have h1 : (orchStep s (.resolve token outcome t)).1 = s := by
              simp [orchStep, hstep]
            have := ih s tn hrest hlatest
            cases outcome with
            | success r =>
                simp only [orchRun, h1, List.foldl_cons, applySuccess_success, if_neg hc]
                exact this
            | failure msg =>
                simp only [orchRun, h1, List.foldl_cons, applySuccess_failure]
                exact this

/-! ## Concrete demonstration values for witnesses and counterexamples -/

/-- A demo start point (downtown Toronto). -/
def demoPointA : LocationPoint := { lng := -79.3832, lat := 43.6532 }

/-- A demo destination point. -/
def demoPointB : LocationPoint := { lng := -79.39, lat := 43.66 }

/-- Demo route statistics. -/
def demoStats : RouteStats :=
  { total_distance_m := 1000
    total_time_s := 600
    crime_incidents_nearby := 5
    safety_score := 0.5
    detour_factor := 1 }

/-- A minimal demo route response. -/
def demoRouteResponse : RouteResponse :=
  { success := true
    message := "Route calculated successfully"
    route_geojson := { features := [] }
    route_stats := demoStats
    shortest_path_stats := none }

/-- A minimal demo `ProcessedRoutes` payload. -/
def demoRoutes : ProcessedRoutes :=
  { shortest := demoRouteResponse
    safe := demoRouteResponse }

/-- A second, distinguishable demo payload. -/
def demoRoutes2 : ProcessedRoutes :=
  { shortest := { demoRouteResponse with message := "second" }
    safe := demoRouteResponse }

/-- The demo route request between the two demo points. -/
def demoRouteRequest : RouteRequest := mkRouteRequest demoPointA demoPointB

/-! ## Claims -/

/-- C1 — Recency invariant: along any valid event-loop trace consisting of
a phase of point updates and timer firings that dispatches the strictly
increasing tokens `T1, ..., Tn` (so `tn` is the last issued token),
followed by backend resolutions arriving in any order with any outcomes,
the final route state is exactly the payload of the (last) successful
resolution carrying `tn` — or no route state at all if `tn` has not
resolved successfully — and is never the response of an earlier token. -/
theorem routeRecencyInvariant
    (updates resolutions : List OrchEvent) (tn : Nat)
    (hval : validTrace 0 initOrchState (updates ++ resolutions) = true)
    (hupd : ∀ e ∈ updates, isResolve e = false)
    (hres : ∀ e ∈ resolutions, isResolve e = true)
    (htn : (callTokens (orchRun initOrchState updates).2).getLast? = some tn) :
    (orchRun initOrchState (updates ++ resolutions)).1.routes =
      lastSuccessFor tn resolutions ∧
    List.Pairwise (· < ·) (callTokens (orchRun initOrchState updates).2) := by
  have hleft := validTrace_append_left _ _ _ _ hval
  obtain ⟨now2, hinv⟩ := tokInv_run_init updates hleft
  obtain ⟨hpast, htimer, hsorted, hlast⟩ := hinv
  have hlatest : (orchRun initOrchState updates).1.latestCalculationId = tn := by
    rw [hlast, htn]
    rfl
  have hroutes0 : (orchRun initOrchState updates).1.routes = none :=
    orchRun_routes_none updates initOrchState hupd rfl
  have hphase := resolve_phase resolutions (orchRun initOrchState updates).1 tn hres hlatest
  refine ⟨?_, hsorted⟩
  rw [orchRun_append]
  exact hphase.1.trans (by rw [hroutes0]; rfl)

/-- Witness for C1 on a concrete valid trace: two point selections, a
debounced dispatch with token 310, and its successful resolution. -/
theorem routeRecencyInvariant_witness :
    (orchRun initOrchState
      ([.setStart (some demoPointA) 0, .setDestination (some demoPointB) 10,
        .timerFire 310] ++
       [.resolve 310 (.success demoRoutes) 400])).1.routes = some demoRoutes := by
  have h := routeRecencyInvariant
    [.setStart (some demoPointA) 0, .setDestination (some demoPointB) 10,
     .timerFire 310]
    [.resolve 310 (.success demoRoutes) 400] 310
    (by decide) (by decide) (by decide) (by decide)
  rw [h.1]
  rfl

/-- C7 — Token uniqueness and currency: along any valid trace from the
initial state, the tokens minted at dispatch are strictly increasing
(hence pairwise distinguishable), and `latestCalculationId` — the unique
"current" token — always equals the most recently minted token (its
initial value 0 before any dispatch); it is updated at the very step that
mints the token.  Since this holds of every valid trace it holds at every
instant of any execution. -/
theorem tokenUniquenessAndCurrency (evs : List OrchEvent)
    (hval : validTrace 0 initOrchState evs = true) :
    List.Pairwise (· < ·) (callTokens (orchRun initOrchState evs).2) ∧
    (orchRun initOrchState evs).1.latestCalculationId =
      (callTokens (orchRun initOrchState evs).2).getLast?.getD 0 := by
  obtain ⟨now2, hinv⟩ := tokInv_run_init evs hval
  exact ⟨hinv.2.2.1, hinv.2.2.2⟩

/-- Witness for C7 on a concrete valid trace dispatching two tokens. -/
theorem tokenUniquenessAndCurrency_witness :
    List.Pairwise (· < ·)
      (callTokens (orchRun initOrchState
        [.setStart (some demoPointA) 0, .setDestination (some demoPointB) 10,
         .timerFire 310, .setStart (some demoPointB) 400,
         .timerFire 700]).2) ∧
    (orchRun initOrchState
      [.setStart (some demoPointA) 0, .setDestination (some demoPointB) 10,
       .timerFire 310, .setStart (some demoPointB) 400,
       .timerFire 700]).1.latestCalculationId =
      (callTokens (orchRun initOrchState
        [.setStart (some demoPointA) 0, .setDestination (some demoPointB) 10,
         .timerFire 310, .setStart (some demoPointB) 400,
         .timerFire 700]).2).getLast?.getD 0 :=
  tokenUniquenessAndCurrency
    [.setStart (some demoPointA) 0, .setDestination (some demoPointB) 10,
     .timerFire 310, .setStart (some demoPointB) 400, .timerFire 700]
    (by decide)

/-- C5 — Stale results are side-effect free: a backend resolution (success
or failure) whose token differs from `latestCalculationId` leaves the
entire component state unchanged — routes, error and loading flag
included — and emits no action (no render, no listener notification). -/
theorem staleResolutionNoOp (s : OrchState) (token : Nat)
    (outcome : CalcOutcome) (t : Nat)
    (h : token ≠ s.latestCalculationId) :
    orchStep s (.resolve token outcome t) = (s, []) := by
  simp [orchStep, resolveStep_stale s token outcome h]

/-- Witness for C5: a stale failure resolution is a strict no-op on the
initial state. -/
theorem staleResolutionNoOp_witness :
    orchStep initOrchState (.resolve 1 (.failure "network error") 50) =
      (initOrchState, []) :=
  staleResolutionNoOp initOrchState 1 (.failure "network error") 50 (by decide)

/-- C2 (counterexample) — the claim asserts that when the backend call for
the current token rejects, "no previously displayed routes remain
displayed".  On this concrete valid trace a first calculation (token 310)
succeeds and its routes are displayed; a second calculation (token 700)
fails with a network error while current.  The error message is surfaced,
but the previously displayed routes are still present in the route state:
the catch branch only sets `routeError` and never clears `routes`. -/
theorem currentTokenFailure_counterexample :
    validTrace 0 initOrchState
      [.setStart (some demoPointA) 0, .setDestination (some demoPointB) 10,
       .timerFire 310, .resolve 310 (.success demoRoutes) 350,
       .setDestination (some demoPointA) 400, .timerFire 700,
       .resolve 700 (.failure "Failed to fetch") 800] = true ∧
    (orchRun initOrchState
      [.setStart (some demoPointA) 0, .setDestination (some demoPointB) 10,
       .timerFire 310, .resolve 310 (.success demoRoutes) 350,
       .setDestination (some demoPointA) 400, .timerFire 700,
       .resolve 700 (.failure "Failed to fetch") 800]).1.routeError =
      some "Failed to fetch" ∧
    (orchRun initOrchState
      [.setStart (some demoPointA) 0, .setDestination (some demoPointB) 10,
       .timerFire 310, .resolve 310 (.success demoRoutes) 350,
       .setDestination (some demoPointA) 400, .timerFire 700,
       .resolve 700 (.failure "Failed to fetch") 800]).1.routes =
      some demoRoutes := by
  refine ⟨by decide, by decide, rfl⟩

/-- C2 (amended) — when the backend call for the current token rejects,
the error message is surfaced to the UI (and the loading flag cleared),
but previously displayed routes are left untouched in the route state;
failures attached to non-current tokens never reach the UI: they are
swallowed without any state change. -/
theorem currentTokenFailureSurfaced (s : OrchState) (token : Nat)
    (msg : String) (t : Nat) :
    (token = s.latestCalculationId →
      orchStep s (.resolve token (.failure msg) t) =
        ({ s with routeError := some msg, isLoadingRoutes := false }, [])) ∧
    (token ≠ s.latestCalculationId →
      orchStep s (.resolve token (.failure msg) t) = (s, [])) := by
  constructor
  · intro h
    simp [orchStep, resolveStep_current_failure s token msg h]
  · intro h
    simp [orchStep, resolveStep_stale s token (.failure msg) h]

/-- Witness for the amended C2: a current-token network failure on the
initial state surfaces the error message while leaving `routes`
unchanged. -/
theorem currentTokenFailureSurfaced_witness :
    orchStep initOrchState (.resolve 0 (.failure "network error") 5) =
      ({ initOrchState with routeError := some "network error",
                            isLoadingRoutes := false }, []) :=
  (currentTokenFailureSurfaced initOrchState 0 "network error" 5).1 rfl

/-- C4 (counterexample) — the claim asserts that once a point becomes
null, an in-flight calculation "can no longer have an effect" and visible
route state "stays cleared".  On this concrete valid trace a calculation
with token 310 is dispatched, the start point is then set to null
(clearing routes), and the in-flight call resolves afterwards: because
nulling a point does not invalidate `latestCalculationId`, the resolution
still passes the recency check and its routes are applied while the start
point is null. -/
theorem clearOnMissingPoint_counterexample :
    validTrace 0 initOrchState
      [.setStart (some demoPointA) 0, .setDestination (some demoPointB) 10,
       .timerFire 310, .setStart none 400,
       .resolve 310 (.success demoRoutes) 600] = true ∧
    (orchRun initOrchState
      [.setStart (some demoPointA) 0, .setDestination (some demoPointB) 10,
       .timerFire 310, .setStart none 400,
       .resolve 310 (.success demoRoutes) 600]).1.startPoint = none ∧
    (orchRun initOrchState
      [.setStart (some demoPointA) 0, .setDestination (some demoPointB) 10,
       .timerFire 310, .setStart none 400,
       .resolve 310 (.success demoRoutes) 600]).1.routes = some demoRoutes := by
  refine ⟨by decide, by decide, rfl⟩

/-- C4 (amended) — when either point becomes null the displayed route
state is immediately cleared and any pending debounce timer is cancelled;
however, `latestCalculationId` is left unchanged, so an in-flight
calculation is not invalidated: if it resolves later while still carrying
the latest token, its result is applied (see the counterexample). -/
theorem clearOnMissingPointImmediate (s : OrchState) (t : Nat) :
    ((orchStep s (.setStart none t)).1.routes = none ∧
     (orchStep s (.setStart none t)).1.pendingTimer = none ∧
     (orchStep s (.setStart none t)).1.latestCalculationId =
       s.latestCalculationId) ∧
    ((orchStep s (.setDestination none t)).1.routes = none ∧
     (orchStep s (.setDestination none t)).1.pendingTimer = none ∧
     (orchStep s (.setDestination none t)).1.latestCalculationId =
       s.latestCalculationId) := by
  constructor
  · have h := routeEffect_noStart { s with startPoint := none } t rfl
    simp [orchStep, h]
  · have h := routeEffect_noDest { s with destinationPoint := none } t rfl
    simp [orchStep, h]

/-- Returns `true` for point-update events. -/
def isPointChange : OrchEvent → Bool
  | .setStart _ _ => true
  | .setDestination _ _ => true
  | _ => false

theorem callTokens_pointChange_step (s : OrchState) (e : OrchEvent)
    (h : isPointChange e = true) : callTokens (orchStep s e).2 = [] := by
  cases e with
  | setStart p t =>
      simp only [orchStep]
      rcases hp : p with _ | q
      · rw [routeEffect_noStart _ t (by simp [hp])]
        rfl
      · rcases hd : s.destinationPoint with _ | r
        · rw [routeEffect_noDest _ t (by simp [hd])]
          rfl
        · rw [routeEffect_both _ q r t (by simp) (by simp [hd])]
          rfl
  | setDestination p t =>
      simp only [orchStep]
      rcases hp : p with _ | q
      · rw [routeEffect_noDest _ t (by simp [hp])]
        rfl
      · rcases hd : s.startPoint with _ | r
        · rw [routeEffect_noStart _ t (by simp [hd])]
          rfl
        · rw [routeEffect_both _ r q t (by simp [hd]) (by simp)]
          rfl
  | timerFire t => simp [isPointChange] at h
  | resolve token outcome t => simp [isPointChange] at h

theorem callTokens_pointChanges (evs : List OrchEvent) :
    ∀ s : OrchState, (∀ e ∈ evs, isPointChange e = true) →
      callTokens (orchRun s evs).2 = [] := by
  induction evs with
  | nil => intro s _; rfl
  | cons e rest ih =>
      intro s hall
      have h1 := callTokens_pointChange_step s e (hall e (List.mem_cons_self e rest))
      have h2 := ih (orchStep s e).1 (fun x hx => hall x (List.mem_cons_of_mem e hx))
      simp [orchRun, callTokens_append, h1, h2]

theorem orchRun_singleton_actions (s : OrchState) (e : OrchEvent) :
    (orchRun s [e]).2 = (orchStep s e).2 := by
  simp [orchRun]

theorem orchStep_timerFire_actions (s : OrchState) (a b : LocationPoint) (t : Nat)
    (h1 : s.startPoint = some a) (h2 : s.destinationPoint = some b) :
    (orchStep s (.timerFire t)).2 = [.backendCall t (mkRouteRequest a b)] := by
  obtain ⟨sp, dp, rts, ld, er, lid, pt⟩ := s
  dsimp only at h1 h2
  subst h1
  subst h2
  rfl

/-- C6 — Debounce collapsing: (i) a nonempty sequence of point changes,
all lying inside one 300-unit debounce window, followed by the firing of
the (single surviving) debounce timer, issues exactly one backend call —
the timer firing — not one per change; (ii) and (iii): every point change
made while the counterpart point is set cancels whatever debounce timer
was pending and arms a fresh one scheduled 300 units after the change. -/
theorem debounceCollapsing :
    (∀ (c : OrchEvent) (cs : List OrchEvent) (tf : Nat) (a b : LocationPoint),
      (∀ x ∈ c :: cs, isPointChange x = true) →
      (∀ x ∈ c :: cs, eventTime c ≤ eventTime x ∧ eventTime x < eventTime c + 300) →
      validTrace 0 initOrchState ((c :: cs) ++ [.timerFire tf]) = true →
      (orchRun initOrchState (c :: cs)).1.startPoint = some a →
      (orchRun initOrchState (c :: cs)).1.destinationPoint = some b →
      callTokens (orchRun initOrchState ((c :: cs) ++ [.timerFire tf])).2 = [tf]) ∧
    (∀ (s : OrchState) (p b : LocationPoint) (t : Nat),
      s.destinationPoint = some b →
      (orchStep s (.setStart (some p) t)).1.pendingTimer = some (t + 300)) ∧
    (∀ (s : OrchState) (p a : LocationPoint) (t : Nat),
      s.startPoint = some a →
      (orchStep s (.setDestination (some p) t)).1.pendingTimer = some (t + 300)) := by
  refine ⟨?_, ?_, ?_⟩
  · intro c cs tf a b hpc hwin hval hsp hsd
    rw [orchRun_append, callTokens_append, callTokens_pointChanges _ _ hpc,
      List.nil_append]
    have hstep := orchStep_timerFire_actions (orchRun initOrchState (c :: cs)).1
      a b tf hsp hsd
    rw [orchRun_singleton_actions, hstep]
    rfl
  · intro s p b t hb
    have h := routeEffect_both { s with startPoint := some p } p b t rfl (by simpa using hb)
    simp [orchStep, h]
  · intro s p a t ha
    have h := routeEffect_both { s with destinationPoint := some p } a p t
      (by simpa using ha) rfl
    simp [orchStep, h]

/-- Witness for C6: two rapid point changes (at times 0 and 100, inside
one 300-unit window) followed by the surviving timer firing at 400
produce exactly one backend call. -/
theorem debounceCollapsing_witness :
    callTokens (orchRun initOrchState
      ([.setStart (some demoPointA) 0, .setDestination (some demoPointB) 100] ++
       [.timerFire 400])).2 = [400] :=
  debounceCollapsing.1 (.setStart (some demoPointA) 0)
    [.setDestination (some demoPointB) 100] 400 demoPointA demoPointB
    (by decide) (by decide) (by decide) rfl rfl

/-- A backend response with `success: true` but `safest_route` absent. -/
def invalidNoSafestResponse : CalculateMultipleResponse :=
  { success := true
    message := "Routes calculated"
    shortest_route := some { features := [] }
    shortest_stats := some demoStats
    safest_route := none
    safest_stats := some demoStats
    comparison_stats := none }

/-- C3 (counterexample) — the claim asserts that a response missing
`safest_route` "results in an error state".  On this concrete input the
response is indeed detected as invalid inside the `try` block, but the
`catch` clause swallows the error and `calculateRoutes` resolves
successfully with the hardcoded fallback pair; when that resolution
reaches the component with the current token, it is applied as a normal
success: routes are displayed and no error state is ever set. -/
theorem allOrNothing_counterexample :
    tryCalculateRoutes (.ok invalidNoSafestResponse) =
      .error "Invalid API response structure" ∧
    serviceCalculateRoutes demoRouteRequest (.ok invalidNoSafestResponse) =
      getHardcodedRoutes demoRouteRequest ∧
    (orchStep { initOrchState with isLoadingRoutes := true }
      (.resolve 0 (.success
        (serviceCalculateRoutes demoRouteRequest (.ok invalidNoSafestResponse)))
        5)).1.routes = some (getHardcodedRoutes demoRouteRequest) ∧
    (orchStep { initOrchState with isLoadingRoutes := true }
      (.resolve 0 (.success
        (serviceCalculateRoutes demoRouteRequest (.ok invalidNoSafestResponse)))
        5)).1.routeError = none := by
  exact ⟨rfl, rfl, rfl, rfl⟩

/-- C3 (amended) — a response missing either `shortest_route` or
`safest_route` is detected by validation and is never displayed, neither
fully nor partially; but instead of an error state, `calculateRoutes`
falls back to the fixed hardcoded route pair (which contains both a
shortest and a safe route) and resolves successfully with it. -/
theorem allOrNothingFallback (request : RouteRequest)
    (result : CalculateMultipleResponse)
    (h : result.shortest_route = none ∨ result.safest_route = none) :
    tryCalculateRoutes (.ok result) = .error "Invalid API response structure" ∧
    serviceCalculateRoutes request (.ok result) = getHardcodedRoutes request := by
  have hval : validateApiResponse result = false := by
    rcases h with h | h <;> simp [validateApiResponse, h]
  constructor
  · simp [tryCalculateRoutes, hval]
  · simp [serviceCalculateRoutes, tryCalculateRoutes, hval]

/-- Witness for the amended C3 at the concrete invalid response. -/
theorem allOrNothingFallback_witness :
    serviceCalculateRoutes demoRouteRequest (.ok invalidNoSafestResponse) =
      getHardcodedRoutes demoRouteRequest :=
  (allOrNothingFallback demoRouteRequest invalidNoSafestResponse (Or.inr rfl)).2

/-- C8 — Backend request shape: when the debounce timer fires with both
points set, exactly one backend call is dispatched with the request built
from the current point pair, and the JSON body built for it by the
routing service carries `start`/`destination` as latitude/longitude
objects taken from those points, `include_shortest = true`,
`include_safest = true`, `crime_weight_safest = 0.1` and
`max_detour_factor = 2`; the call targets `POST
{baseUrl}/api/routing/calculate-multiple`. -/
theorem backendRequestShape (s : OrchState) (a b : LocationPoint) (t : Nat)
    (baseUrl : String)
    (h1 : s.startPoint = some a) (h2 : s.destinationPoint = some b) :
    (orchStep s (.timerFire t)).2 = [.backendCall t (mkRouteRequest a b)] ∧
    buildApiRequest (mkRouteRequest a b) =
      { start := { latitude := a.lat, longitude := a.lng }
        destination := { latitude := b.lat, longitude := b.lng }
        include_shortest := true
        include_safest := true
        crime_weight_safest := 0.1
        max_detour_factor := 2 } ∧
    calculateMultipleUrl baseUrl = baseUrl ++ "/api/routing/calculate-multiple" ∧
    calculateMultipleMethod = "POST" :=
  ⟨orchStep_timerFire_actions s a b t h1 h2, rfl, rfl, rfl⟩

/-- Witness for C8 at a concrete state with both demo points set. -/
theorem backendRequestShape_witness :
    (orchStep { initOrchState with startPoint := some demoPointA,
                                   destinationPoint := some demoPointB }
      (.timerFire 310)).2 =
      [.backendCall 310 (mkRouteRequest demoPointA demoPointB)] :=
  (backendRequestShape
    { initOrchState with startPoint := some demoPointA,
                         destinationPoint := some demoPointB }
    demoPointA demoPointB 310 "http://localhost:8000" rfl rfl).1

/-- C9 — The routing service never rejects: whatever the fetch outcome —
the request fails at the network level, the HTTP status is not ok, the
response shape fails validation, `success` is `false`, or any of
`shortest_route`, `safest_route`, `shortest_stats`, `safest_stats` is
missing — `calculateRoutes` resolves successfully with the fixed
hardcoded pair of Toronto routes, in which both the shortest and the safe
route are populated. -/
theorem serviceNeverRejects (request : RouteRequest) (outcome : FetchOutcome)
    (h : (∃ msg, outcome = .networkError msg) ∨
         (∃ status body, outcome = .httpError status body) ∨
         (∃ result, outcome = .ok result ∧
            (validateApiResponse result = false ∨ result.success = false ∨
             result.shortest_route = none ∨ result.safest_route = none ∨
             result.shortest_stats = none ∨ result.safest_stats = none))) :
    serviceCalculateRoutes request outcome = getHardcodedRoutes request ∧
    getHardcodedRoutes request =
      { shortest := hardcodedShortestRoute, safe := hardcodedSafeRoute } ∧
    hardcodedShortestRoute.route_geojson.features ≠ [] ∧
    hardcodedSafeRoute.route_geojson.features ≠ [] := by
  refine ⟨?_, rfl, by simp [hardcodedShortestRoute], by simp [hardcodedSafeRoute]⟩
  rcases h with ⟨msg, rfl⟩ | ⟨status, body, rfl⟩ | ⟨result, rfl, hbad⟩
  · rfl
  · rfl
  · have hval : validateApiResponse result = false := by
      rcases hbad with h | h | h | h | h | h
      · exact h
      · simp [validateApiResponse, h]
      · simp [validateApiResponse, h]
      · simp [validateApiResponse, h]
      · simp [validateApiResponse, h]
      · simp [validateApiResponse, h]
    simp [serviceCalculateRoutes, tryCalculateRoutes, hval]

/-- Witness for C9: a network-level failure resolves with the hardcoded
pair. -/
theorem serviceNeverRejects_witness :
    serviceCalculateRoutes demoRouteRequest (.networkError "Failed to fetch") =
      getHardcodedRoutes demoRouteRequest :=
  (serviceNeverRejects demoRouteRequest (.networkError "Failed to fetch")
    (Or.inl ⟨"Failed to fetch", rfl⟩)).1

/-- The selection state before any interaction. -/
def initSelectionState : SelectionState :=
  { startPoint := none
    destinationPoint := none
    startInputValue := ""
    destinationInputValue := ""
    popupMessage := none
    startMarker := none
    destinationMarker := none }

/-- C10 — Toronto bounds guard: whenever the computed distance from the
Toronto centre exceeds `MAX_DISTANCE_KM` (30 km), both selection handlers
reject the selection: the start and destination points and both markers
are left unchanged (so no marker is placed and, the points being
unchanged, no calculation is triggered by the selection), the input field
of the targeted side is cleared, and the transient popup message "Select
locations within Toronto" is shown.  The distance argument stands for the
handler's `getDistanceKm(lat, lng, TORONTO_CENTER.lat, TORONTO_CENTER.lng)`,
whose floating-point trigonometry is treated as an input here. -/
theorem torontoBoundsGuard (dist : Rat) (address : String) (lng lat : Rat)
    (type : PointType) (s : SelectionState) (h : dist > MAX_DISTANCE_KM) :
    ((handleSetLocation dist address lng lat type s).startPoint = s.startPoint ∧
     (handleSetLocation dist address lng lat type s).destinationPoint =
       s.destinationPoint ∧
     (handleSetLocation dist address lng lat type s).startMarker = s.startMarker ∧
     (handleSetLocation dist address lng lat type s).destinationMarker =
       s.destinationMarker ∧
     (handleSetLocation dist address lng lat type s).popupMessage =
       some "Select locations within Toronto" ∧
     (type = .start →
       (handleSetLocation dist address lng lat type s).startInputValue = "") ∧
     (type = .destination →
       (handleSetLocation dist address lng lat type s).destinationInputValue = "")) ∧
    ((handleLocationSelect dist lng lat address type s).startPoint = s.startPoint ∧
     (handleLocationSelect dist lng lat address type s).destinationPoint =
       s.destinationPoint ∧
     (handleLocationSelect dist lng lat address type s).startMarker = s.startMarker ∧
     (handleLocationSelect dist lng lat address type s).destinationMarker =
       s.destinationMarker ∧
     (handleLocationSelect dist lng lat address type s).popupMessage =
       some "Select locations within Toronto" ∧
     (type = .start →
       (handleLocationSelect dist lng lat address type s).startInputValue = "") ∧
     (type = .destination →
       (handleLocationSelect dist lng lat address type s).destinationInputValue =
         "")) := by
  constructor
  · unfold handleSetLocation
    rw [if_pos h]
    cases type <;> simp
  · unfold handleLocationSelect
    rw [if_pos h]
    cases type <;> simp

/-- Witness for C10: a selection 31 km away (distance exceeding the 30 km
bound) is rejected from the initial selection state. -/
theorem torontoBoundsGuard_witness :
    (handleSetLocation 31 "5 Victoria Street" (-79.8) 44.2 .start
      initSelectionState).popupMessage =
      some "Select locations within Toronto" ∧
    (handleSetLocation 31 "5 Victoria Street" (-79.8) 44.2 .start
      initSelectionState).startPoint = none :=
  ⟨((torontoBoundsGuard 31 "5 Victoria Street" (-79.8) 44.2 .start
      initSelectionState (by norm_num [MAX_DISTANCE_KM])).1).2.2.2.2.1,
   ((torontoBoundsGuard 31 "5 Victoria Street" (-79.8) 44.2 .start
      initSelectionState (by norm_num [MAX_DISTANCE_KM])).1).1⟩
